import Mathlib

/-!
Verification development for the HumanTranslator browser front end
(`src/web/script.js`, the statusBar-enabled version).

The client is a thin browser controller: it fetches a health status, loads a
language list into the target selector, and submits translate / speech-to-text
/ text-to-speech requests, reflecting results and errors into visible UI
elements.  We embed the DOM state touched by the script as a record, each
JSON response as a structure following the API contract, fetch outcomes as a
sum (parsed response vs. network error / unparsable body), and each event
handler as a pure function from state and fetch outcome to the new state
together with the list of HTTP requests it issued.
-/

namespace HumanTranslator

/-- JavaScript string truthiness fallback `a || b` for strings:
the empty string is falsy, every other string is truthy. -/
def jsOrStr (a b : String) : String :=
  if a = "" then b else a

/-- JavaScript fallback `a || b` where `a` is a possibly-absent string field
of a parsed JSON object: `undefined` and `""` are falsy. -/
def jsOptOr (a : Option String) (b : String) : String :=
  match a with
  | none => b
  | some s => if s = "" then b else s

/-- JavaScript `String.prototype.trim()`: strip leading and trailing
whitespace.  Implemented over the character list so that it computes by
plain structural recursion. -/
def jsTrim (s : String) : String :=
  ⟨((s.data.dropWhile Char.isWhitespace).reverse.dropWhile Char.isWhitespace).reverse⟩

/-- Truthiness of a possibly-absent string field (`undefined` and `""` are
falsy, any non-empty string is truthy). -/
def optTruthy (a : Option String) : Bool :=
  match a with
  | none => false
  | some s => s != ""

/-- One `<option>` of the target-language `<select>`: its `value`, its label
(`textContent`) and its `selected` flag. -/
structure SelOption where
  value : String
  label : String
  selected : Bool
deriving Repr, DecidableEq

/-- The DOM state the script reads and writes: the health badge, the two text
areas, the two language selectors, the language-info line, the alerts
container (last shown alert message and its class), the status bar (last
shown message and its type), the TTS text field and the TTS audio element. -/
structure UIState where
  healthText : String
  healthClass : String
  srcText : String
  outText : String
  srcLangValue : String
  tgtLangOptions : List SelOption
  langInfo : String
  alertMsg : Option (String × String)
  statusMsg : Option (String × String)
  ttsText : String
  ttsAudioSrc : Option String
  ttsPlayed : Bool
deriving Repr, DecidableEq

/-- The `value` of a single `<select>`: the value of the selected option if
one is flagged, otherwise the value of the first option, otherwise `""`. -/
def selectValue (opts : List SelOption) : String :=
  match opts.filter (fun o => o.selected) with
  | o :: _ => o.value
  | [] =>
    match opts with
    | [] => ""
    | o :: _ => o.value

/-- An HTTP request the client can issue, with the payload fields the script
puts in the body. -/
inductive Request where
  | health
  | languages
  | translateReq (text source target : String)
  | sttReq
  | ttsReq (text language : String)
deriving Repr, DecidableEq

/-- Outcome of one `fetch(...).then(r => r.json())`: either a parsed response
object, or a failure (network rejection or an unparsable body), which lands
in the handler's `catch`. -/
inductive FetchOutcome (α : Type) where
  | ok (v : α) : FetchOutcome α
  | fail : FetchOutcome α
deriving Repr, DecidableEq

/-- `GET /api/health` response body. -/
structure HealthResp where
  status : String
deriving Repr, DecidableEq

/-- `GET /api/languages` response body: the code-to-name map in entry order
plus the advertised total. -/
structure LangsResp where
  languages : List (String × String)
  total : Int
deriving Repr, DecidableEq

/-- `POST /api/translate` response body.  `error` is absent on success. -/
structure TranslateResp where
  success : Bool
  translated_text : String
  source_language : String
  target_language : String
  error : Option String
deriving Repr, DecidableEq

/-- `POST /api/speech-to-text` response body. -/
structure STTResp where
  success : Bool
  text : String
  error : Option String
deriving Repr, DecidableEq

/-- `POST /api/text-to-speech` response body; `audio_url` may be absent. -/
structure TTSResp where
  success : Bool
  audio_url : Option String
  error : Option String
deriving Repr, DecidableEq

/-- `showStatus(message, type)`: write the message and its type to the status
bar (the auto-hide timeout only affects visibility later and carries no
data). -/
def showStatus (st : UIState) (message ty : String) : UIState :=
  { st with statusMsg := some (message, ty) }

/-- `showAlert(msg, type)`: clear the alerts container and append one `<div>`
with class `type` and text `msg`. -/
def showAlert (st : UIState) (msg ty : String) : UIState :=
  { st with alertMsg := some (msg, ty) }

/-- `setBadge(text, ok)`: set the badge text and give it class `'badge'`,
with `' alert'` appended when `ok` is false. -/
def setBadge (st : UIState) (text : String) (ok : Bool) : UIState :=
  { st with
    healthText := text
    healthClass := "badge" ++ (if ok then "" else " alert") }

/-- `checkHealth()`: fetch `/api/health`; on a parsed body compare `status`
to `'healthy'` and set the badge accordingly; on any failure set the
unreachable badge. -/
def checkHealth (st : UIState) (resp : FetchOutcome HealthResp) :
    UIState × List Request :=
  match resp with
  | .ok j =>
    (if j.status = "healthy" then setBadge st "Server ✓" true
     else setBadge st "Server issue" false, [Request.health])
  | .fail => (setBadge st "Server unreachable" false, [Request.health])

/-- The option list `loadLanguages` builds from a languages map: one option
per entry in entry order, `value` the code, label the name, selected exactly
when the code is `'en'`. -/
def langOptions (m : List (String × String)) : List SelOption :=
  m.map (fun p => { value := p.1, label := p.2, selected := p.1 = "en" })

/-- `loadLanguages()`: fetch `/api/languages`; on a parsed body clear the
selector, append one option per map entry (selecting `'en'`), and set the
language-info line; on failure show an alert. -/
def loadLanguages (st : UIState) (resp : FetchOutcome LangsResp) :
    UIState × List Request :=
  match resp with
  | .ok j =>
    ({ st with
        tgtLangOptions := langOptions j.languages
        langInfo := "Loaded " ++ toString j.total ++ " languages." },
      [Request.languages])
  | .fail => (showAlert st "Failed to load languages" "alert", [Request.languages])

/-- `translate()`: trim the source text; if empty, alert and stop before any
fetch; otherwise show the in-progress status, POST `/api/translate`, and on a
truthy `success` write `translated_text` and the detected-languages line,
else alert with `error` or the fallback.  `(srcText.value || '').trim()` is
`srcText.value.trim()` since `.value` is a string and `s || ''` is `s`. -/
def translate (st : UIState) (resp : FetchOutcome TranslateResp) :
    UIState × List Request :=
  let text := jsTrim st.srcText
  let source := jsOrStr st.srcLangValue "auto"
  let target := selectValue st.tgtLangOptions
  if text = "" then
    (showAlert st "Please enter text to translate" "alert", [])
  else
    let st1 := showStatus st "جاري الترجمة..." "info"
    let req := Request.translateReq text source target
    match resp with
    | .ok j =>
      if j.success then
        (showStatus
          { st1 with
              outText := j.translated_text
              langInfo :=
                "Detected: " ++ j.source_language ++ " → " ++ j.target_language }
          "تمت الترجمة بنجاح! ✨" "success", [req])
      else
        (showStatus (showAlert st1 (jsOptOr j.error "Translation failed") "alert")
          "فشل في الترجمة" "error", [req])
    | .fail =>
      (showStatus (showAlert st1 "Network error" "alert")
        "خطأ في الشبكة" "error", [req])

/-- `swap()`: exchange the source and translated text fields (`tmp || ''` is
`tmp` since `.value` is a string) and show the swap status message. -/
def swap (st : UIState) : UIState :=
  let tmp := st.srcText
  let st' := { st with srcText := st.outText, outText := jsOrStr tmp "" }
  showStatus st' "تم تبديل النصوص" "info"

/-- `clearAll()`: empty both text fields, the alerts container and the
language-info line, and show the cleared status message. -/
def clearAll (st : UIState) : UIState :=
  showStatus
    { st with srcText := "", outText := "", alertMsg := none, langInfo := "" }
    "تم مسح جميع النصوص" "info"

/-- `stt()`: if no audio file is selected, alert and stop before any fetch;
otherwise POST the file to `/api/speech-to-text` and on success write the
transcribed text into the source field, else alert with `error` or the
fallback. -/
def stt (hasFile : Bool) (st : UIState) (resp : FetchOutcome STTResp) :
    UIState × List Request :=
  if !hasFile then
    (showAlert st "Select an audio file" "alert", [])
  else
    let st1 := showStatus st "جاري تحويل الصوت إلى نص..." "info"
    match resp with
    | .ok j =>
      if j.success then
        (showStatus (showAlert { st1 with srcText := j.text }
            "Transcribed successfully" "success")
          "تم تحويل الصوت إلى نص بنجاح! 🎵" "success", [Request.sttReq])
      else
        (showStatus (showAlert st1 (jsOptOr j.error "STT failed") "alert")
          "فشل في تحويل الصوت" "error", [Request.sttReq])
    | .fail =>
      (showStatus (showAlert st1 "Network error" "alert")
        "خطأ في الشبكة" "error", [Request.sttReq])

/-- `tts()`: take the TTS text falling back to the source text, trim; if
empty, alert and stop before any fetch; otherwise POST `/api/text-to-speech`
with the target selector's value (falling back to `'en'`), and only when both
`success` and `audio_url` are truthy set and play the audio element, else
alert with `error` or the fallback. -/
def tts (st : UIState) (resp : FetchOutcome TTSResp) :
    UIState × List Request :=
  let text := jsTrim (jsOrStr st.ttsText (jsOrStr st.srcText ""))
  let language := jsOrStr (selectValue st.tgtLangOptions) "en"
  if text = "" then
    (showAlert st "Enter text for TTS" "alert", [])
  else
    let st1 := showStatus st "جاري تحويل النص إلى صوت..." "info"
    let req := Request.ttsReq text language
    match resp with
    | .ok j =>
      if j.success && optTruthy j.audio_url then
        (showStatus
          { st1 with ttsAudioSrc := j.audio_url, ttsPlayed := true }
          "تم تحويل النص إلى صوت بنجاح! 🔊" "success", [req])
      else
        (showStatus (showAlert st1 (jsOptOr j.error "TTS failed") "alert")
          "فشل في تحويل النص إلى صوت" "error", [req])
    | .fail =>
      (showStatus (showAlert st1 "Network error" "alert")
        "خطأ في الشبكة" "error", [req])

/-- `copyTranslation()`: copy the translated text to the clipboard, showing a
status message either way; no network request. -/
def copyTranslation (st : UIState) : UIState × List Request :=
  if jsTrim st.outText = "" then
    (showStatus st "لا يوجد نص للنسخ" "error", [])
  else
    (showStatus st "تم نسخ الترجمة بنجاح! 📋" "success", [])

/-- `downloadTranslation()`: offer the translated text as a file download,
showing a status message either way; no network request. -/
def downloadTranslation (st : UIState) : UIState × List Request :=
  if jsTrim st.outText = "" then
    (showStatus st "لا يوجد نص للتحميل" "error", [])
  else
    (showStatus st "تم تحميل الترجمة كملف نصي! 💾" "success", [])

/-- One user-triggered event after page load: a click on one of the seven
wired buttons, carrying the fetch outcome its handler will observe (and for
STT whether an audio file is selected). -/
inductive PageEvent where
  | clickTranslate (resp : FetchOutcome TranslateResp)
  | clickSwap
  | clickClear
  | clickSTT (hasFile : Bool) (resp : FetchOutcome STTResp)
  | clickTTS (resp : FetchOutcome TTSResp)
  | clickCopy
  | clickDownload

/-- Dispatch one event to its registered click handler. -/
def handleEvent (st : UIState) (e : PageEvent) : UIState × List Request :=
  match e with
  | .clickTranslate resp => translate st resp
  | .clickSwap => (swap st, [])
  | .clickClear => (clearAll st, [])
  | .clickSTT hasFile resp => stt hasFile st resp
  | .clickTTS resp => tts st resp
  | .clickCopy => copyTranslation st
  | .clickDownload => downloadTranslation st

/-- Run a sequence of events, collecting all requests issued. -/
def runEvents (st : UIState) : List PageEvent → UIState × List Request
  | [] => (st, [])
  | e :: es =>
    let p := handleEvent st e
    let q := runEvents p.1 es
    (q.1, p.2 ++ q.2)

/-- The whole page lifetime: the `DOMContentLoaded` handler awaits
`checkHealth()` then `loadLanguages()` (no timer or interval re-invokes
either), wires the button handlers, and then the user's events run. -/
def pageLife (respH : FetchOutcome HealthResp) (respL : FetchOutcome LangsResp)
    (st0 : UIState) (events : List PageEvent) : UIState × List Request :=
  let p1 := checkHealth st0 respH
  let p2 := loadLanguages p1.1 respL
  let p3 := runEvents p2.1 events
  (p3.1, p1.2 ++ p2.2 ++ p3.2)

/-- Whether a request targets the health endpoint. -/
def isHealthReq : Request → Bool
  | .health => true
  | _ => false

/-- A convenient initial state: every field empty. -/
def initState : UIState :=
  { healthText := "", healthClass := "", srcText := "", outText := ""
    srcLangValue := "", tgtLangOptions := [], langInfo := ""
    alertMsg := none, statusMsg := none, ttsText := ""
    ttsAudioSrc := none, ttsPlayed := false }

end HumanTranslator

namespace HumanTranslator

/-! ### Helper lemmas -/

theorem jsOrStr_empty_right (s : String) : jsOrStr s "" = s := by
  unfold jsOrStr; split <;> simp_all

theorem mem_codes_of_mem_langOptions {m : List (String × String)} {o : SelOption}
    (h : o ∈ langOptions m) : o.value ∈ m.map Prod.fst := by
  unfold langOptions at h
  rcases List.mem_map.1 h with ⟨p, hp, rfl⟩
  exact List.mem_map.2 ⟨p, hp, rfl⟩

theorem selectValue_eq_head_filter (opts : List SelOption) (o : SelOption)
    (l : List SelOption) (hf : opts.filter (fun x => x.selected) = o :: l) :
    selectValue opts = o.value := by
  unfold selectValue
  rw [hf]

theorem selectValue_eq_head (opts : List SelOption) (o : SelOption)
    (l : List SelOption) (hf : opts.filter (fun x => x.selected) = [])
    (ho : opts = o :: l) :
    selectValue opts = o.value := by
  unfold selectValue
  rw [hf, ho]

theorem selectValue_langOptions_mem {m : List (String × String)} (hm : m ≠ []) :
    selectValue (langOptions m) ∈ m.map Prod.fst := by
  rcases hf : (langOptions m).filter (fun x => x.selected) with _ | ⟨o, l⟩
  · cases m with
    | nil => exact absurd rfl hm
    | cons p rest =>
      have h1 : selectValue (langOptions (p :: rest)) = p.1 :=
        selectValue_eq_head _ ⟨p.1, p.2, decide (p.1 = "en")⟩ (langOptions rest) hf rfl
      rw [h1]
      simp
  · rw [selectValue_eq_head_filter _ _ _ hf]
    exact mem_codes_of_mem_langOptions
      (List.mem_of_mem_filter (hf ▸ List.mem_cons_self o l))

theorem selectValue_langOptions_en {m : List (String × String)}
    (h : "en" ∈ m.map Prod.fst) : selectValue (langOptions m) = "en" := by
  rcases hf : (langOptions m).filter (fun x => x.selected) with _ | ⟨o, l⟩
  · exfalso
    rcases List.mem_map.1 h with ⟨p, hp, hpe⟩
    have hmem : (⟨p.1, p.2, decide (p.1 = "en")⟩ : SelOption) ∈ langOptions m :=
      List.mem_map.2 ⟨p, hp, rfl⟩
    have hsel : (⟨p.1, p.2, decide (p.1 = "en")⟩ : SelOption).selected = true := by
      simp [hpe.symm]
    have hin : (⟨p.1, p.2, decide (p.1 = "en")⟩ : SelOption) ∈
        (langOptions m).filter (fun x => x.selected) :=
      List.mem_filter.2 ⟨hmem, hsel⟩
    rw [hf] at hin
    exact absurd hin (List.not_mem_nil _)
  · rw [selectValue_eq_head_filter _ _ _ hf]
    have hmem := hf ▸ List.mem_cons_self o l
    have ho1 : o ∈ langOptions m := (List.mem_filter.1 hmem).1
    have ho2 : o.selected = true := (List.mem_filter.1 hmem).2
    unfold langOptions at ho1
    rcases List.mem_map.1 ho1 with ⟨p, hp, rfl⟩
    simpa using ho2

theorem translate_requests (st : UIState) (r : FetchOutcome TranslateResp) :
    (translate st r).2 = [] ∨
    (translate st r).2 = [Request.translateReq (jsTrim st.srcText)
      (jsOrStr st.srcLangValue "auto") (selectValue st.tgtLangOptions)] := by
  by_cases h : jsTrim st.srcText = ""
  · left; simp [translate, h]
  · right
    cases r with
    | ok j => cases hj : j.success <;> simp [translate, h, hj]
    | fail => simp [translate, h]

theorem stt_requests (hasFile : Bool) (st : UIState) (r : FetchOutcome STTResp) :
    (stt hasFile st r).2 = [] ∨ (stt hasFile st r).2 = [Request.sttReq] := by
  cases hasFile with
  | false => left; simp [stt]
  | true =>
    right
    cases r with
    | ok j => cases hj : j.success <;> simp [stt, hj]
    | fail => simp [stt]

theorem tts_requests (st : UIState) (r : FetchOutcome TTSResp) :
    (tts st r).2 = [] ∨
    (tts st r).2 = [Request.ttsReq (jsTrim (jsOrStr st.ttsText (jsOrStr st.srcText "")))
      (jsOrStr (selectValue st.tgtLangOptions) "en")] := by
  by_cases h : jsTrim (jsOrStr st.ttsText (jsOrStr st.srcText "")) = ""
  · left; simp [tts, h]
  · right
    cases r with
    | ok j =>
      cases hj : (j.success && optTruthy j.audio_url) <;> simp [tts, h, hj]
    | fail => simp [tts, h]

theorem checkHealth_requests (st : UIState) (r : FetchOutcome HealthResp) :
    (checkHealth st r).2 = [Request.health] := by
  cases r <;> rfl

theorem loadLanguages_requests (st : UIState) (r : FetchOutcome LangsResp) :
    (loadLanguages st r).2 = [Request.languages] := by
  cases r <;> rfl

theorem handleEvent_no_health (st : UIState) (e : PageEvent) :
    (handleEvent st e).2.filter isHealthReq = [] := by
  cases e with
  | clickTranslate r =>
    rcases translate_requests st r with h | h <;> simp [handleEvent, h, isHealthReq]
  | clickSwap => rfl
  | clickClear => rfl
  | clickSTT hasFile r =>
    rcases stt_requests hasFile st r with h | h <;> simp [handleEvent, h, isHealthReq]
  | clickTTS r =>
    rcases tts_requests st r with h | h <;> simp [handleEvent, h, isHealthReq]
  | clickCopy =>
    by_cases h : jsTrim st.outText = "" <;> simp [handleEvent, copyTranslation, h]
  | clickDownload =>
    by_cases h : jsTrim st.outText = "" <;> simp [handleEvent, downloadTranslation, h]

theorem runEvents_no_health (es : List PageEvent) (st : UIState) :
    (runEvents st es).2.filter isHealthReq = [] := by
  induction es generalizing st with
  | nil => rfl
  | cons e es ih =>
    simp [runEvents, List.filter_append, handleEvent_no_health, ih]

theorem handleEvent_len_le_one (st : UIState) (e : PageEvent) :
    (handleEvent st e).2.length ≤ 1 := by
  cases e with
  | clickTranslate r =>
    rcases translate_requests st r with h | h <;> simp [handleEvent, h]
  | clickSwap => simp [handleEvent]
  | clickClear => simp [handleEvent]
  | clickSTT hasFile r =>
    rcases stt_requests hasFile st r with h | h <;> simp [handleEvent, h]
  | clickTTS r =>
    rcases tts_requests st r with h | h <;> simp [handleEvent, h]
  | clickCopy =>
    by_cases h : jsTrim st.outText = "" <;> simp [handleEvent, copyTranslation, h]
  | clickDownload =>
    by_cases h : jsTrim st.outText = "" <;> simp [handleEvent, downloadTranslation, h]

end HumanTranslator

namespace HumanTranslator

/-! ### Concrete states used by witnesses and counterexamples -/

/-- A state with non-empty source and TTS text fields. -/
def stNonEmpty : UIState :=
  { initState with srcText := "hello", ttsText := "hi" }

/-! ### Claim theorems -/

/-- C1: for every translate request whose response parses as JSON with a
truthy `success` field, the translated-text field is set to exactly the
response's `translated_text` value and the language-info line to
`Detected: <source_language> → <target_language>`. -/
theorem c1_translate_success (st : UIState) (j : TranslateResp)
    (hne : jsTrim st.srcText ≠ "") (hs : j.success = true) :
    (translate st (.ok j)).1.outText = j.translated_text ∧
    (translate st (.ok j)).1.langInfo =
      "Detected: " ++ j.source_language ++ " → " ++ j.target_language := by
  simp [translate, hne, hs, showStatus]

/-- C1 witness: a concrete successful translation. -/
theorem c1_translate_success_witness :
    (translate stNonEmpty (.ok ⟨true, "bonjour", "en", "fr", none⟩)).1.outText =
      "bonjour" ∧
    (translate stNonEmpty (.ok ⟨true, "bonjour", "en", "fr", none⟩)).1.langInfo =
      "Detected: " ++ "en" ++ " → " ++ "fr" :=
  c1_translate_success stNonEmpty ⟨true, "bonjour", "en", "fr", none⟩
    (by decide) rfl

/-- C2: in every state where the handler's own relevant input text trims to
empty, translate (respectively tts) issues no fetch request, shows its prompt
alert, and changes no other UI field; each handler is covered independently,
with no condition on fields it does not read. -/
theorem c2_empty_text_no_fetch :
    (∀ (st : UIState) (rT : FetchOutcome TranslateResp), jsTrim st.srcText = "" →
      translate st rT =
        ({ st with alertMsg := some ("Please enter text to translate", "alert") }, [])) ∧
    (∀ (st : UIState) (rX : FetchOutcome TTSResp),
      jsTrim (jsOrStr st.ttsText (jsOrStr st.srcText "")) = "" →
      tts st rX =
        ({ st with alertMsg := some ("Enter text for TTS", "alert") }, [])) := by
  constructor
  · intro st rT h1
    simp [translate, h1, showAlert]
  · intro st rX h2
    simp [tts, h2, showAlert]

/-- C2 witness: translate on a state whose source box is empty while the TTS
box is filled, and tts on a state whose TTS box is whitespace-only while the
source box is filled. -/
theorem c2_empty_text_no_fetch_witness :
    translate { initState with ttsText := "hi" } .fail =
      ({ { initState with ttsText := "hi" } with
          alertMsg := some ("Please enter text to translate", "alert") }, []) ∧
    tts { initState with srcText := "hello", ttsText := " " } .fail =
      ({ { initState with srcText := "hello", ttsText := " " } with
          alertMsg := some ("Enter text for TTS", "alert") }, []) :=
  ⟨c2_empty_text_no_fetch.1 { initState with ttsText := "hi" } .fail (by decide),
   c2_empty_text_no_fetch.2 { initState with srcText := "hello", ttsText := " " }
     .fail (by decide)⟩

/-- C3: on a `success:false` response from translate, speech-to-text or
text-to-speech, the UI shows the response's `error` string verbatim when it
is a non-empty string, and otherwise the per-endpoint fallback
(`Translation failed` / `STT failed` / `TTS failed`). -/
theorem c3_failure_error_verbatim_or_fallback :
    (∀ (st : UIState) (jt : TranslateResp), jsTrim st.srcText ≠ "" →
      jt.success = false →
      (∀ s, jt.error = some s → s ≠ "" →
        (translate st (.ok jt)).1.alertMsg = some (s, "alert")) ∧
      (jt.error = none ∨ jt.error = some "" →
        (translate st (.ok jt)).1.alertMsg = some ("Translation failed", "alert"))) ∧
    (∀ (st : UIState) (js : STTResp), js.success = false →
      (∀ s, js.error = some s → s ≠ "" →
        (stt true st (.ok js)).1.alertMsg = some (s, "alert")) ∧
      (js.error = none ∨ js.error = some "" →
        (stt true st (.ok js)).1.alertMsg = some ("STT failed", "alert"))) ∧
    (∀ (st : UIState) (jx : TTSResp),
      jsTrim (jsOrStr st.ttsText (jsOrStr st.srcText "")) ≠ "" →
      jx.success = false →
      (∀ s, jx.error = some s → s ≠ "" →
        (tts st (.ok jx)).1.alertMsg = some (s, "alert")) ∧
      (jx.error = none ∨ jx.error = some "" →
        (tts st (.ok jx)).1.alertMsg = some ("TTS failed", "alert"))) := by
  refine ⟨?_, ?_, ?_⟩
  · intro st jt hT hjt
    constructor
    · intro s hse hsne
      simp [translate, hT, hjt, hse, hsne, jsOptOr, showAlert, showStatus]
    · rintro (he | he) <;>
        simp [translate, hT, hjt, he, jsOptOr, showAlert, showStatus]
  · intro st js hjs
    constructor
    · intro s hse hsne
      simp [stt, hjs, hse, hsne, jsOptOr, showAlert, showStatus]
    · rintro (he | he) <;>
        simp [stt, hjs, he, jsOptOr, showAlert, showStatus]
  · intro st jx hX hjx
    constructor
    · intro s hse hsne
      simp [tts, hX, hjx, hse, hsne, jsOptOr, showAlert, showStatus]
    · rintro (he | he) <;>
        simp [tts, hX, hjx, he, jsOptOr, showAlert, showStatus]

/-- C3 witness: a translate failure carrying a non-empty error string, an STT
failure in the normal empty-source-box state with the error field absent, and
a tts failure with the error field absent. -/
theorem c3_failure_error_verbatim_or_fallback_witness :
    (translate stNonEmpty (.ok ⟨false, "", "", "", some "boom"⟩)).1.alertMsg =
      some ("boom", "alert") ∧
    (stt true initState (.ok ⟨false, "", none⟩)).1.alertMsg =
      some ("STT failed", "alert") ∧
    (tts stNonEmpty (.ok ⟨false, none, none⟩)).1.alertMsg =
      some ("TTS failed", "alert") :=
  ⟨(c3_failure_error_verbatim_or_fallback.1 stNonEmpty
      ⟨false, "", "", "", some "boom"⟩ (by decide) rfl).1 "boom" rfl (by decide),
   (c3_failure_error_verbatim_or_fallback.2.1 initState
      ⟨false, "", none⟩ rfl).2 (Or.inl rfl),
   (c3_failure_error_verbatim_or_fallback.2.2 stNonEmpty
      ⟨false, none, none⟩ (by decide) rfl).2 (Or.inl rfl)⟩

/-- C4: after a successfully parsed languages response, the target selector
holds exactly one option per map entry in entry order (value the code, label
the name, previous options removed), an option is selected exactly when its
code is `en`, a map containing `en` leaves `en` as the selector's value, and
for the map `{en:"English", fr:"French"}` the selector holds exactly those
two options with `en` preselected. -/
theorem c4_loadLanguages_populates (st : UIState) (j : LangsResp) :
    ((loadLanguages st (.ok j)).1.tgtLangOptions.map (fun o => (o.value, o.label)) =
      j.languages) ∧
    (∀ o ∈ (loadLanguages st (.ok j)).1.tgtLangOptions,
      o.selected = true ↔ o.value = "en") ∧
    ("en" ∈ j.languages.map Prod.fst →
      selectValue (loadLanguages st (.ok j)).1.tgtLangOptions = "en") ∧
    ((loadLanguages st (.ok ⟨[("en", "English"), ("fr", "French")], 2⟩)).1.tgtLangOptions =
      [⟨"en", "English", true⟩, ⟨"fr", "French", false⟩] ∧
     selectValue
       (loadLanguages st (.ok ⟨[("en", "English"), ("fr", "French")], 2⟩)).1.tgtLangOptions =
       "en") := by
  refine ⟨?_, ?_, ?_, ?_, ?_⟩
  · show (langOptions j.languages).map (fun o => (o.value, o.label)) = j.languages
    induction j.languages with
    | nil => rfl
    | cons p rest ih =>
      simp only [langOptions, List.map_cons] at ih ⊢
      simp [ih]
  · intro o ho
    simp only [loadLanguages, langOptions, List.mem_map] at ho
    rcases ho with ⟨p, hp, rfl⟩
    simp
  · intro h
    have he : (loadLanguages st (.ok j)).1.tgtLangOptions = langOptions j.languages := rfl
    rw [he]
    exact selectValue_langOptions_en h
  · simp [loadLanguages, langOptions]
  · rfl

/-- C5: after checkHealth, a parsed body with status `healthy` shows the
positive badge (`Server ✓`, class `badge`); a parsed body with any other
status shows `Server issue` and any fetch failure shows `Server unreachable`,
both with class `badge alert`. -/
theorem c5_health_badge (st : UIState) (j : HealthResp) :
    (j.status = "healthy" →
      (checkHealth st (.ok j)).1.healthText = "Server ✓" ∧
      (checkHealth st (.ok j)).1.healthClass = "badge") ∧
    (j.status ≠ "healthy" →
      (checkHealth st (.ok j)).1.healthText = "Server issue" ∧
      (checkHealth st (.ok j)).1.healthClass = "badge alert") ∧
    ((checkHealth st .fail).1.healthText = "Server unreachable" ∧
      (checkHealth st .fail).1.healthClass = "badge alert") := by
  refine ⟨?_, ?_, ?_⟩
  · intro h
    constructor <;> simp [checkHealth, setBadge, h]
  · intro h
    refine ⟨by simp [checkHealth, setBadge, h], ?_⟩
    simp only [checkHealth, setBadge, h]
    simp [h]
  · exact ⟨rfl, rfl⟩

/-- C5 witness: a healthy body and an unhealthy body. -/
theorem c5_health_badge_witness :
    ((checkHealth initState (.ok ⟨"healthy"⟩)).1.healthText = "Server ✓" ∧
      (checkHealth initState (.ok ⟨"healthy"⟩)).1.healthClass = "badge") ∧
    ((checkHealth initState (.ok ⟨"down"⟩)).1.healthText = "Server issue" ∧
      (checkHealth initState (.ok ⟨"down"⟩)).1.healthClass = "badge alert") :=
  ⟨(c5_health_badge initState ⟨"healthy"⟩).1 rfl,
   (c5_health_badge initState ⟨"down"⟩).2.1 (by decide)⟩

end HumanTranslator

namespace HumanTranslator

/-- C6: every failure of a request the client makes (fetch rejection or
unparsable body, or a `success:false` response) is surfaced as a visible
message (an alert, or for the health check the negative badge), none is
retried, and every handler issues at most one fetch per invocation. -/
theorem c6_failures_surfaced_no_retry :
    (∀ (st : UIState) (e : PageEvent), (handleEvent st e).2.length ≤ 1) ∧
    (∀ (st : UIState) (r : FetchOutcome HealthResp),
      (checkHealth st r).2.length ≤ 1) ∧
    (∀ (st : UIState) (r : FetchOutcome LangsResp),
      (loadLanguages st r).2.length ≤ 1) ∧
    (∀ st : UIState, (checkHealth st .fail).1.healthText = "Server unreachable" ∧
      (checkHealth st .fail).1.healthClass = "badge alert") ∧
    (∀ st : UIState, (loadLanguages st .fail).1.alertMsg =
      some ("Failed to load languages", "alert")) ∧
    (∀ st : UIState, jsTrim st.srcText ≠ "" →
      (translate st .fail).1.alertMsg = some ("Network error", "alert")) ∧
    (∀ (st : UIState) (j : TranslateResp), jsTrim st.srcText ≠ "" →
      j.success = false →
      (translate st (.ok j)).1.alertMsg =
        some (jsOptOr j.error "Translation failed", "alert")) ∧
    (∀ st : UIState, (stt true st .fail).1.alertMsg =
      some ("Network error", "alert")) ∧
    (∀ (st : UIState) (j : STTResp), j.success = false →
      (stt true st (.ok j)).1.alertMsg = some (jsOptOr j.error "STT failed", "alert")) ∧
    (∀ st : UIState, jsTrim (jsOrStr st.ttsText (jsOrStr st.srcText "")) ≠ "" →
      (tts st .fail).1.alertMsg = some ("Network error", "alert")) ∧
    (∀ (st : UIState) (j : TTSResp),
      jsTrim (jsOrStr st.ttsText (jsOrStr st.srcText "")) ≠ "" →
      j.success = false →
      (tts st (.ok j)).1.alertMsg = some (jsOptOr j.error "TTS failed", "alert")) := by
  refine ⟨handleEvent_len_le_one, ?_, ?_, ?_, ?_, ?_, ?_, ?_, ?_, ?_, ?_⟩
  · intro st r
    rw [checkHealth_requests]
    simp
  · intro st r
    rw [loadLanguages_requests]
    simp
  · intro st
    exact ⟨rfl, rfl⟩
  · intro st
    rfl
  · intro st h
    simp [translate, h, showAlert, showStatus]
  · intro st j h hj
    simp [translate, h, hj, showAlert, showStatus]
  · intro st
    rfl
  · intro st j hj
    simp [stt, hj, showAlert, showStatus]
  · intro st h
    simp [tts, h, showAlert, showStatus]
  · intro st j h hj
    simp [tts, h, hj, showAlert, showStatus]

/-- C6 witness: concrete failing outcomes are surfaced and issue one fetch. -/
theorem c6_failures_surfaced_no_retry_witness :
    (translate stNonEmpty .fail).1.alertMsg = some ("Network error", "alert") ∧
    (tts stNonEmpty (.ok ⟨false, none, some "nope"⟩)).1.alertMsg =
      some ("nope", "alert") :=
  ⟨c6_failures_surfaced_no_retry.2.2.2.2.2.1 stNonEmpty (by decide),
   c6_failures_surfaced_no_retry.2.2.2.2.2.2.2.2.2.2 stNonEmpty
     ⟨false, none, some "nope"⟩ (by decide) rfl⟩

/-- C7 counterexample: over an entire concrete page lifetime (health and
languages load, then a swap click and a copy click) the health endpoint is
requested exactly once, so it is not requested more than once. -/
theorem c7_health_polling_counterexample :
    ¬ (1 < ((pageLife (.ok ⟨"healthy"⟩) (.ok ⟨[("en", "English")], 1⟩) initState
        [PageEvent.clickSwap, PageEvent.clickCopy]).2.filter isHealthReq).length) := by
  decide

/-- C7 amended: over the lifetime of a loaded page the health endpoint is
requested exactly once, by the load handler; no user event or timer issues
another health request. -/
theorem c7_health_requested_once (respH : FetchOutcome HealthResp)
    (respL : FetchOutcome LangsResp) (st0 : UIState) (events : List PageEvent) :
    ((pageLife respH respL st0 events).2.filter isHealthReq).length = 1 := by
  unfold pageLife
  simp only [List.filter_append, List.length_append]
  rw [checkHealth_requests, loadLanguages_requests, runEvents_no_health]
  rfl

end HumanTranslator

namespace HumanTranslator

/-- A state after loading the one-entry language map `{en:"English"}`, with
source text `hi` and the source selector empty (its page default). -/
def st8 : UIState :=
  { initState with
    srcText := "hi"
    tgtLangOptions := langOptions [("en", "English")] }

/-- C8 counterexample: with the loaded language map `{en:"English"}` and an
empty source-language selector, translate submits source code `auto`, which
is not present in the loaded language map. -/
theorem c8_code_in_map_counterexample :
    st8.tgtLangOptions = langOptions [("en", "English")] ∧
    (translate st8 (.ok ⟨true, "hola", "en", "en", none⟩)).2 =
      [Request.translateReq "hi" "auto" "en"] ∧
    "auto" ∉ ([("en", "English")].map Prod.fst) := by
  refine ⟨rfl, by decide, by decide⟩

/-- C8 amended: when the target selector was populated from a nonempty loaded
language map, the target code of every translate request is present in that
map and the language code of every tts request is present in it or is the
fallback `en`; the source code of a translate request is the source
selector's value or `auto` and is not constrained by the map. -/
theorem c8_submitted_codes_amended (st : UIState) (m : List (String × String))
    (rT : FetchOutcome TranslateResp) (rX : FetchOutcome TTSResp)
    (hm : m ≠ []) (hopts : st.tgtLangOptions = langOptions m) :
    (∀ t s g, (translate st rT).2 = [Request.translateReq t s g] →
      g ∈ m.map Prod.fst ∧ s = jsOrStr st.srcLangValue "auto") ∧
    (∀ t l, (tts st rX).2 = [Request.ttsReq t l] →
      l ∈ m.map Prod.fst ∨ l = "en") := by
  constructor
  · intro t s g heq
    rcases translate_requests st rT with h | h
    · rw [h] at heq
      exact absurd heq (by simp)
    · rw [h] at heq
      simp only [List.cons.injEq, Request.translateReq.injEq, and_true] at heq
      obtain ⟨ht, hs, hg⟩ := heq
      refine ⟨?_, hs.symm⟩
      rw [← hg, hopts]
      exact selectValue_langOptions_mem hm
  · intro t l heq
    rcases tts_requests st rX with h | h
    · rw [h] at heq
      exact absurd heq (by simp)
    · rw [h] at heq
      simp only [List.cons.injEq, Request.ttsReq.injEq, and_true] at heq
      obtain ⟨ht, hl⟩ := heq
      by_cases hv : selectValue st.tgtLangOptions = ""
      · right
        rw [← hl]
        simp [jsOrStr, hv]
      · left
        rw [← hl]
        rw [hopts] at hv ⊢
        simpa [jsOrStr, hv] using selectValue_langOptions_mem hm

/-- C8 amended witness: with the map `{en:"English"}` loaded, the target of
the issued translate request is `en`, a code of the map. -/
theorem c8_submitted_codes_amended_witness :
    "en" ∈ ([("en", "English")].map Prod.fst) ∧
    jsOrStr st8.srcLangValue "auto" = "auto" :=
  (c8_submitted_codes_amended st8 [("en", "English")]
      (.ok ⟨true, "hola", "en", "en", none⟩) .fail (by decide) rfl).1
    "hi" "auto" "en" (by decide)

/-- C9 counterexample: from the initial state (empty status bar), one swap
call changes the status bar, so swap does not leave all state outside the
two text fields unchanged. -/
theorem c9_swap_counterexample :
    initState.statusMsg = none ∧
    (swap initState).statusMsg = some ("تم تبديل النصوص", "info") :=
  ⟨rfl, rfl⟩

/-- C9 amended: one swap call exchanges the source-text and translated-text
fields, two calls restore both, and every other field is unchanged except
the status bar, which shows the transient swap status message. -/
theorem c9_swap_exchanges (st : UIState) :
    (swap st).srcText = st.outText ∧
    (swap st).outText = st.srcText ∧
    (swap (swap st)).srcText = st.srcText ∧
    (swap (swap st)).outText = st.outText ∧
    (swap st).healthText = st.healthText ∧
    (swap st).healthClass = st.healthClass ∧
    (swap st).srcLangValue = st.srcLangValue ∧
    (swap st).tgtLangOptions = st.tgtLangOptions ∧
    (swap st).langInfo = st.langInfo ∧
    (swap st).alertMsg = st.alertMsg ∧
    (swap st).ttsText = st.ttsText ∧
    (swap st).ttsAudioSrc = st.ttsAudioSrc ∧
    (swap st).ttsPlayed = st.ttsPlayed ∧
    (swap st).statusMsg = some ("تم تبديل النصوص", "info") := by
  simp [swap, showStatus, jsOrStr_empty_right]

/-- Whenever the success-and-audio condition is false, tts leaves the audio
element untouched. -/
theorem tts_preserves_audio (st : UIState) (j : TTSResp)
    (h : (j.success && optTruthy j.audio_url) = false) :
    (tts st (.ok j)).1.ttsAudioSrc = st.ttsAudioSrc ∧
    (tts st (.ok j)).1.ttsPlayed = st.ttsPlayed := by
  by_cases ht : jsTrim (jsOrStr st.ttsText (jsOrStr st.srcText "")) = "" <;>
    simp [tts, ht, h, showAlert, showStatus]

/-- C10: a tts response with truthy `success` but missing or empty
`audio_url` leaves the audio element's source and play state untouched and
shows the error alert (the response's error string or `TTS failed`); the
audio element changes only when both `success` and `audio_url` are truthy. -/
theorem c10_tts_no_audio (st : UIState) (j : TTSResp)
    (hne : jsTrim (jsOrStr st.ttsText (jsOrStr st.srcText "")) ≠ "")
    (hs : j.success = true) (ha : optTruthy j.audio_url = false) :
    (tts st (.ok j)).1.ttsAudioSrc = st.ttsAudioSrc ∧
    (tts st (.ok j)).1.ttsPlayed = st.ttsPlayed ∧
    (tts st (.ok j)).1.alertMsg = some (jsOptOr j.error "TTS failed", "alert") ∧
    (∀ (st2 : UIState) (j2 : TTSResp),
      ((tts st2 (.ok j2)).1.ttsAudioSrc ≠ st2.ttsAudioSrc ∨
        (tts st2 (.ok j2)).1.ttsPlayed ≠ st2.ttsPlayed) →
      j2.success = true ∧ optTruthy j2.audio_url = true) := by
  have hb : (j.success && optTruthy j.audio_url) = false := by
    simp [hs, ha]
  refine ⟨(tts_preserves_audio st j hb).1, (tts_preserves_audio st j hb).2, ?_, ?_⟩
  · simp [tts, hne, hb, showAlert, showStatus]
  · intro st2 j2 hd
    by_cases hb2 : (j2.success && optTruthy j2.audio_url) = true
    · simpa using hb2
    · have hb2' : (j2.success && optTruthy j2.audio_url) = false := by
        cases hx : (j2.success && optTruthy j2.audio_url) <;> simp_all
      rcases hd with hd | hd
      · exact absurd (tts_preserves_audio st2 j2 hb2').1 hd
      · exact absurd (tts_preserves_audio st2 j2 hb2').2 hd

/-- C10 witness: a concrete success response with an empty audio url. -/
theorem c10_tts_no_audio_witness :
    (tts stNonEmpty (.ok ⟨true, some "", some "boom"⟩)).1.ttsAudioSrc =
      stNonEmpty.ttsAudioSrc ∧
    (tts stNonEmpty (.ok ⟨true, some "", some "boom"⟩)).1.alertMsg =
      some (jsOptOr (some "boom") "TTS failed", "alert") :=
  ⟨(c10_tts_no_audio stNonEmpty ⟨true, some "", some "boom"⟩
      (by decide) rfl rfl).1,
   (c10_tts_no_audio stNonEmpty ⟨true, some "", some "boom"⟩
      (by decide) rfl rfl).2.2.1⟩

end HumanTranslator

namespace HumanTranslator

/-- C4 witness: a concrete map containing `en` (not in first position) leaves
`en` as the selector's value. -/
theorem c4_loadLanguages_populates_witness :
    selectValue (loadLanguages initState
      (.ok ⟨[("fr", "French"), ("en", "English")], 2⟩)).1.tgtLangOptions = "en" :=
  (c4_loadLanguages_populates initState
    ⟨[("fr", "French"), ("en", "English")], 2⟩).2.2.1 (by decide)

end HumanTranslator
